import Mathlib

/-!
Shallow embedding of the print-setu SDK core (src/src/PrinterService.ts,
src/src/index.ts, src/unnamed/part_000 constants, src/unnamed/part_001):
the connection manager, event dispatcher and request correlator of the
`PrinterService` class (first variant, the one exposing `waitForResponse`,
`ping` and wildcard dispatch), together with the constructor defaulting
logic shared by both variants.
-/

namespace PrintSetu

/-! ### JSON-ish values and wire messages -/

/-- A JSON value as carried in a message `payload` field. -/
inductive JValue where
  | jnull
  | jbool (b : Bool)
  | jnum (n : Int)
  | jstr (s : String)
  | jarr (elems : List JValue)
  | jobj (fields : List (String × JValue))

/-- An inbound or outbound wire frame: `\x7btype, payload?, error?\x7d`
(src/src/PrinterService.ts `PrinterMessage` plus the inbound `error` field). -/
structure PrinterMsg where
  type : String
  payload : Option JValue := none
  error : Option String := none

/-- JavaScript truthiness of a `JValue` (used by the `||` chains in the code). -/
def jsTruthy : JValue → Bool
  | JValue.jnull => false
  | JValue.jbool b => b
  | JValue.jnum n => decide (n ≠ 0)
  | JValue.jstr s => decide (s ≠ "")
  | JValue.jarr _ => true
  | JValue.jobj _ => true

mutual

/-- JavaScript `String(v)` coercion of a `JValue` (how `new Error(v)` renders
a non-string argument). -/
def jvalueToJsString : JValue → String
  | JValue.jnull => "null"
  | JValue.jbool b => cond b "true" "false"
  | JValue.jnum n => toString n
  | JValue.jstr s => s
  | JValue.jarr xs => String.intercalate "," (jvalueListToJsStrings xs)
  | JValue.jobj _ => "[object Object]"

/-- String coercion of each element of a JSON array. -/
def jvalueListToJsStrings : List JValue → List String
  | [] => []
  | x :: xs => jvalueToJsString x :: jvalueListToJsStrings xs

end

/-- `data.payload?.message`: the `message` field of the payload when the
payload is an object carrying one (optional chaining otherwise yields
`undefined`, i.e. `none`). -/
def payloadMessage (m : PrinterMsg) : Option JValue :=
  m.payload.bind fun p =>
    match p with
    | JValue.jobj fields => (fields.find? (fun f => f.1 == "message")).map (fun f => f.2)
    | _ => none

/-- Truthiness of `data.error` (a missing or empty string is falsy). -/
def errorFieldTruthy (m : PrinterMsg) : Bool :=
  match m.error with
  | some e => decide (e ≠ "")
  | none => false

/-- `data.payload?.message || data.error || 'Operation failed'` — the message
of the rejection built by the error listener in `waitForResponse`
(src/src/PrinterService.ts line 186). -/
def rejectMessage (m : PrinterMsg) : String :=
  match payloadMessage m with
  | some v =>
      if jsTruthy v then jvalueToJsString v
      else match m.error with
        | some e => if e ≠ "" then e else "Operation failed"
        | none => "Operation failed"
  | none =>
      match m.error with
      | some e => if e ≠ "" then e else "Operation failed"
      | none => "Operation failed"

/-! ### Constants (src/unnamed constants, both variants) -/

def DEFAULT_WS_URL : String := "ws://localhost:8899"

def DEFAULT_MAX_RECONNECT_ATTEMPTS : Nat := 5

def DEFAULT_RECONNECT_DELAY : Nat := 2000

def SEARCH_USB_PRINTERS : String := "SEARCH_USB_PRINTERS"

def CONNECT_PRINTER : String := "CONNECT_PRINTER"

def DISCONNECT_PRINTER : String := "DISCONNECT_PRINTER"

def PRINT_DATA : String := "PRINT_DATA"

def GET_STATE : String := "GET_STATE"

def PING : String := "PING"

def PONG : String := "PONG"

/-! ### Event dispatcher (`messageHandlers`, `on`, `handleMessage`)

Handlers are identified by a numeric identity (JS function identity);
the registry models `Map<string, Set<MessageHandler>>` as an association
list whose values keep Set insertion order. -/

abbrev HandlerId := Nat

abbrev Registry := List (String × List HandlerId)

/-- `messageHandlers.get(type)` — the entry for the key, if any. -/
def lookupHandlers : Registry → String → Option (List HandlerId)
  | [], _ => none
  | (t', hs) :: rest, t => if t' = t then some hs else lookupHandlers rest t

/-- The handler set registered for `t`, or the empty set. -/
def typeHandlers (reg : Registry) (t : String) : List HandlerId :=
  (lookupHandlers reg t).getD []

/-- `on(type, handler)`: create the set for `type` if missing, then
`Set.add` the handler (a no-op when already present). -/
def addHandler : Registry → String → HandlerId → Registry
  | [], t, h => [(t, [h])]
  | (t', hs) :: rest, t, h =>
      if t' = t then (t', if h ∈ hs then hs else hs ++ [h]) :: rest
      else (t', hs) :: addHandler rest t h

/-- The unsubscribe closure returned by `on`: `Set.delete` the handler from
that type's set, when the set exists. -/
def removeHandler : Registry → String → HandlerId → Registry
  | [], _, _ => []
  | (t', hs) :: rest, t, h =>
      if t' = t then (t', hs.filter (fun x => x ≠ h)) :: rest
      else (t', hs) :: removeHandler rest t h

/-- `handleMessage` (first variant, src/src/PrinterService.ts lines 126-137):
invoke the handlers registered for the exact type, then additionally every
handler registered under the wildcard key. The result is the sequence of
handler invocations performed for the message. -/
def handleMessage (reg : Registry) (m : PrinterMsg) : List HandlerId :=
  typeHandlers reg m.type ++ typeHandlers reg "*"

/-- `handleMessage` (second variant, lines 428-433): exact-type delivery only,
no wildcard set. -/
def handleMessageNoWildcard (reg : Registry) (m : PrinterMsg) : List HandlerId :=
  typeHandlers reg m.type

/-- Well-formedness maintained by the JS `Set`s: every registered handler
set is duplicate-free. -/
def RegistryWF (reg : Registry) : Prop :=
  ∀ e ∈ reg, List.Nodup e.2

/-! ### Request correlator (`waitForResponse`, src/src/PrinterService.ts 150-190)

A call to `waitForResponse(responseType, errorType?, timeout)` installs a
timer, a success listener and (when the error type is truthy) an error
listener, all before the caller sends the request. Its per-call state is the
pair of listener registrations, the live timer, and the promise settlement. -/

/-- The outcome a correlation settles with: `resolve(data.payload)` or
`reject(new Error(message))`. -/
inductive Outcome where
  | resolved (payload : Option JValue)
  | rejected (message : String)

/-- Static parameters of one `waitForResponse` call. -/
structure ReqSpec where
  responseType : String
  errorType : Option String := none
  timeout : Nat := 10000
  deriving DecidableEq

/-- `if (errorType)` — the error listener is installed only for a truthy
(present and non-empty) error type. -/
def errorTypeTruthy (spec : ReqSpec) : Bool :=
  match spec.errorType with
  | some e => decide (e ≠ "")
  | none => false

/-- Per-call correlation state: which listeners are still registered,
whether the timer is still pending, and the settlement if any. -/
structure WaitState where
  spec : ReqSpec
  successActive : Bool
  errorActive : Bool
  timerActive : Bool
  outcome : Option Outcome

/-- State right after `waitForResponse` returns (and before the request is
sent): timer armed, success listener registered, error listener registered
iff the error type is truthy, promise pending. -/
def initWait (spec : ReqSpec) : WaitState :=
  { spec := spec
    successActive := true
    errorActive := errorTypeTruthy spec
    timerActive := true
    outcome := none }

/-- Body of the success listener (lines 166-177): clear the timer,
unsubscribe both listeners, then reject with `data.error` when that field is
truthy, else resolve with `data.payload`. -/
def settleSuccess (s : WaitState) (m : PrinterMsg) : WaitState :=
  { s with successActive := false, errorActive := false, timerActive := false,
           outcome := some (if errorFieldTruthy m then Outcome.rejected (m.error.getD "")
                            else Outcome.resolved m.payload) }

/-- Body of the error listener (lines 181-187): clear the timer, unsubscribe
both listeners, reject with the preference chain of `rejectMessage`. -/
def settleError (s : WaitState) (m : PrinterMsg) : WaitState :=
  { s with successActive := false, errorActive := false, timerActive := false,
           outcome := some (Outcome.rejected (rejectMessage m)) }

/-- Delivery of one inbound message to the correlation: the success listener
fires iff still registered and the type matches; afterwards the error
listener fires iff still registered and the error type matches (the success
body deregisters it first, matching `Set.forEach` skipping deleted
elements). -/
def stepMsg (s : WaitState) (m : PrinterMsg) : WaitState :=
  let s1 := if s.successActive ∧ m.type = s.spec.responseType then settleSuccess s m else s
  if s1.errorActive ∧ s1.spec.errorType = some m.type then settleError s1 m else s1

/-- Firing of the timeout callback (lines 159-163): if the timer was not
cleared, unsubscribe both listeners and reject with the timeout error naming
the expected success type. -/
def stepTimer (s : WaitState) : WaitState :=
  if s.timerActive then
    { s with successActive := false, errorActive := false, timerActive := false,
             outcome := some (Outcome.rejected
               ("Request timeout: No response received for " ++ s.spec.responseType)) }
  else s

/-- An event observed by one correlation: an inbound message dispatched to
the listeners, or the timeout timer firing. -/
inductive Event where
  | msg (m : PrinterMsg)
  | timerFire

/-- One event step of the correlation state machine. -/
def stepEvent (s : WaitState) : Event → WaitState
  | Event.msg m => stepMsg s m
  | Event.timerFire => stepTimer s

/-- Process a sequence of events. -/
def runEvents (s : WaitState) (tr : List Event) : WaitState :=
  tr.foldl stepEvent s

/-! ### Printer API facade (first variant): one `ReqSpec` per public
request method, built before the outbound request is sent. -/

def defaultTimeout : Nat := 10000

def scanPrintersSpec : ReqSpec :=
  { responseType := "PRINTERS_FOUND", errorType := some "SCAN_ERROR", timeout := defaultTimeout }

def connectPrinterSpec : ReqSpec :=
  { responseType := "PRINTER_CONNECTED", errorType := some "PRINTER_CONNECT_ERROR", timeout := defaultTimeout }

def disconnectPrinterSpec : ReqSpec :=
  { responseType := "PRINTER_DISCONNECTED", errorType := some "PRINTER_DISCONNECT_ERROR", timeout := defaultTimeout }

def printSpec : ReqSpec :=
  { responseType := "PRINT_SUCCESS", errorType := some "PRINT_ERROR", timeout := defaultTimeout }

def pingSpec (timeout : Nat := 3000) : ReqSpec :=
  { responseType := PONG, errorType := none, timeout := timeout }

def getStateSpec : ReqSpec :=
  { responseType := "STATE_RESPONSE", errorType := some "STATE_ERROR", timeout := defaultTimeout }

/-- The correlations built by the six public request methods,
each constructed before its request is sent (lines 192-287). -/
def publicRequestSpecs : List ReqSpec :=
  [scanPrintersSpec, connectPrinterSpec, disconnectPrinterSpec, printSpec,
   pingSpec 3000, getStateSpec]

/-! ### Connection manager (`connect`, `attemptReconnect`, lines 40-110) -/

/-- WebSocket `readyState` values. -/
inductive ReadyState where
  | connecting
  | opened
  | closing
  | closed
  deriving DecidableEq

/-- Connection-manager state: the owned socket handle (with its ready
state), the in-flight connection-attempt promise (by identity), the retry
counter, and the configured policy. `nextPromiseId` supplies fresh promise
identities and `transportsOpened` counts `new WebSocket` constructions. -/
structure ConnState where
  socket : Option ReadyState
  connectionPromise : Option Nat
  nextPromiseId : Nat
  transportsOpened : Nat
  reconnectAttempts : Nat
  maxReconnectAttempts : Nat
  reconnectDelay : Nat
  deriving DecidableEq

/-- What a `connect()` call returned to its caller. -/
inductive ConnectResult where
  | alreadyOpen
  | joinedInFlight (attempt : Nat)
  | newAttempt (attempt : Nat)
  deriving DecidableEq

/-- `connect()` (lines 40-96): resolve immediately when the socket is open;
hand back the in-flight attempt when one exists; otherwise construct a new
transport and record the new attempt. -/
def connect (s : ConnState) : ConnState × ConnectResult :=
  if s.socket = some ReadyState.opened then (s, ConnectResult.alreadyOpen)
  else
    match s.connectionPromise with
    | some p => (s, ConnectResult.joinedInFlight p)
    | none =>
        ({ s with socket := some ReadyState.connecting,
                  connectionPromise := some s.nextPromiseId,
                  nextPromiseId := s.nextPromiseId + 1,
                  transportsOpened := s.transportsOpened + 1 },
         ConnectResult.newAttempt s.nextPromiseId)

/-- The `onopen` handler's effect on the retry policy (line 55): the retry
counter resets to zero on a successful transport open. -/
def onOpen (s : ConnState) : ConnState :=
  { s with reconnectAttempts := 0 }

/-- The `onerror` handler (lines 78-82): the in-flight attempt is dropped
and its promise rejected. -/
def onError (s : ConnState) : ConnState :=
  { s with connectionPromise := none }

/-- `attemptReconnect` (lines 98-110): while the retry counter is below the
maximum, increment it and schedule a `connect()` after the fixed delay
(returned as `some delay`); otherwise do nothing at all. -/
def attemptReconnect (s : ConnState) : ConnState × Option Nat :=
  if s.reconnectAttempts < s.maxReconnectAttempts then
    ({ s with reconnectAttempts := s.reconnectAttempts + 1 }, some s.reconnectDelay)
  else (s, none)

/-- The `onclose` handler (lines 84-88): clear the in-flight attempt and
invoke the reconnect policy. -/
def onClose (s : ConnState) : ConnState × Option Nat :=
  attemptReconnect { s with connectionPromise := none }

/-- One immediately-failing connection attempt: `connect()` opens a
transport, the transport errors (rejecting the attempt), then closes,
driving the reconnect policy. -/
def failingAttempt (s : ConnState) : ConnState × Option Nat :=
  onClose (onError (connect s).1)

/-- The sequence of reconnect delays scheduled when every attempt fails
immediately: each scheduled attempt runs, fails, and may schedule the next;
once the policy declines, nothing triggers any further attempt. `fuel`
bounds the recursion. -/
def reconnectSchedule (s : ConnState) : Nat → List Nat
  | 0 => []
  | fuel + 1 =>
      match failingAttempt s with
      | (s1, some d) => d :: reconnectSchedule s1 fuel
      | (_, none) => []

/-! ### Whole-service state, constructor, `disconnect`, `isConnected` -/

/-- Constructor options (src `PrinterConfig`); `none` models an omitted
optional field. -/
structure PrinterConfig where
  url : Option String := none
  apiKey : Option String := none
  maxReconnectAttempts : Option Nat := none
  reconnectDelay : Option Nat := none
  enableLogging : Option Bool := none

/-- `x || dflt` for an optional string (undefined and `""` are falsy). -/
def jsOrStr (v : Option String) (dflt : String) : String :=
  match v with
  | some s => if s = "" then dflt else s
  | none => dflt

/-- `x || dflt` for an optional number (undefined and `0` are falsy). -/
def jsOrNat (v : Option Nat) (dflt : Nat) : Nat :=
  match v with
  | some n => if n = 0 then dflt else n
  | none => dflt

/-- The configuration the service fields are initialised to. -/
structure ServiceConfig where
  url : String
  maxReconnectAttempts : Nat
  reconnectDelay : Nat
  enableLogging : Bool
  defaultTimeout : Nat
  deriving DecidableEq

/-- The constructor (first variant, lines 26-32; the second variant, lines
326-336, applies the identical `||` defaulting to the same three fields). -/
def mkPrinterService (cfg : PrinterConfig) : ServiceConfig :=
  { url := jsOrStr cfg.url DEFAULT_WS_URL
    maxReconnectAttempts := jsOrNat cfg.maxReconnectAttempts DEFAULT_MAX_RECONNECT_ATTEMPTS
    reconnectDelay := jsOrNat cfg.reconnectDelay DEFAULT_RECONNECT_DELAY
    enableLogging := cfg.enableLogging.getD true
    defaultTimeout := 10000 }

/-- Connection state plus the subscription registry. -/
structure ServiceState where
  conn : ConnState
  handlers : Registry

/-- `disconnect()` (lines 289-295): close the socket if present, null the
handle, clear every subscription. The boolean records whether
`socket.close()` was invoked. -/
def disconnect (s : ServiceState) : ServiceState × Bool :=
  ({ conn := { s.conn with socket := none }, handlers := [] }, s.conn.socket.isSome)

/-- `isConnected()` (lines 297-299): the socket exists and reports OPEN. -/
def isConnected (s : ServiceState) : Bool :=
  s.conn.socket = some ReadyState.opened

/-! ### Auxiliary predicates used by the theorems -/

/-- A settled correlation has cancelled its timer and both listener
subscriptions. -/
def SettledClean (s : WaitState) : Prop :=
  s.outcome.isSome = true →
    s.successActive = false ∧ s.errorActive = false ∧ s.timerActive = false

/-- A trace event that matches neither the success listener nor the error
listener of `spec` and is not the call's own timeout firing. -/
def EventNeutral (spec : ReqSpec) : Event → Prop
  | Event.msg m => m.type ≠ spec.responseType ∧ spec.errorType ≠ some m.type
  | Event.timerFire => False

/-! ## Theorems -/

theorem settledClean_stepEvent (s : WaitState) (e : Event) (hs : SettledClean s) :
    SettledClean (stepEvent s e) := by
  cases e with
  | msg m =>
    simp only [stepEvent, stepMsg]
    split
    · split
      · intro _; exact ⟨rfl, rfl, rfl⟩
      · intro _; exact ⟨rfl, rfl, rfl⟩
    · split
      · intro _; exact ⟨rfl, rfl, rfl⟩
      · exact hs
  | timerFire =>
    simp only [stepEvent, stepTimer]
    split
    · intro _; exact ⟨rfl, rfl, rfl⟩
    · exact hs

theorem stepEvent_settled_fix (s : WaitState) (e : Event)
    (h1 : s.successActive = false) (h2 : s.errorActive = false)
    (h3 : s.timerActive = false) :
    stepEvent s e = s := by
  cases e with
  | msg m => simp [stepEvent, stepMsg, h1, h2]
  | timerFire => simp [stepEvent, stepTimer, h3]

theorem runEvents_settled_fix (s : WaitState) (tr : List Event)
    (h1 : s.successActive = false) (h2 : s.errorActive = false)
    (h3 : s.timerActive = false) :
    runEvents s tr = s := by
  induction tr with
  | nil => rfl
  | cons e tr ih =>
    show runEvents (stepEvent s e) tr = s
    rw [stepEvent_settled_fix s e h1 h2 h3]
    exact ih

theorem settledClean_runEvents (tr : List Event) (s : WaitState) (hs : SettledClean s) :
    SettledClean (runEvents s tr) := by
  induction tr generalizing s with
  | nil => exact hs
  | cons e tr ih => exact ih (stepEvent s e) (settledClean_stepEvent s e hs)

theorem settledClean_initWait (spec : ReqSpec) : SettledClean (initWait spec) := by
  intro h
  simp [initWait] at h

/-- C2: for every `waitForResponse` call, whichever of success delivery,
error delivery and timeout settles the call first cancels the timer and
both subscriptions, and every later event (further success or error
messages, or the timer firing) leaves the correlation state — in particular
its settlement — unchanged: the call is never settled a second time. -/
theorem c2_settle_once (spec : ReqSpec) (tr tr' : List Event) (o : Outcome)
    (h : (runEvents (initWait spec) tr).outcome = some o) :
    (runEvents (initWait spec) tr).successActive = false
    ∧ (runEvents (initWait spec) tr).errorActive = false
    ∧ (runEvents (initWait spec) tr).timerActive = false
    ∧ runEvents (initWait spec) (tr ++ tr') = runEvents (initWait spec) tr := by
  have hclean : SettledClean (runEvents (initWait spec) tr) :=
    settledClean_runEvents tr (initWait spec) (settledClean_initWait spec)
  have hflags := hclean (by rw [h]; rfl)
  refine ⟨hflags.1, hflags.2.1, hflags.2.2, ?_⟩
  have happ : runEvents (initWait spec) (tr ++ tr')
      = runEvents (runEvents (initWait spec) tr) tr' := by
    simp [runEvents, List.foldl_append]
  rw [happ]
  exact runEvents_settled_fix _ tr' hflags.1 hflags.2.1 hflags.2.2

/-- Witness for C2: after a `PRINT_SUCCESS` delivery settles a `print()`
correlation, a later `PRINT_ERROR` delivery and the timer firing change
nothing. -/
theorem c2_settle_once_witness :
    (runEvents (initWait printSpec)
        [Event.msg (PrinterMsg.mk "PRINT_SUCCESS" none none)]).successActive = false
    ∧ (runEvents (initWait printSpec)
        [Event.msg (PrinterMsg.mk "PRINT_SUCCESS" none none)]).errorActive = false
    ∧ (runEvents (initWait printSpec)
        [Event.msg (PrinterMsg.mk "PRINT_SUCCESS" none none)]).timerActive = false
    ∧ runEvents (initWait printSpec)
        ([Event.msg (PrinterMsg.mk "PRINT_SUCCESS" none none)]
          ++ [Event.msg (PrinterMsg.mk "PRINT_ERROR" none none), Event.timerFire])
        = runEvents (initWait printSpec)
            [Event.msg (PrinterMsg.mk "PRINT_SUCCESS" none none)] :=
  c2_settle_once printSpec
    [Event.msg (PrinterMsg.mk "PRINT_SUCCESS" none none)]
    [Event.msg (PrinterMsg.mk "PRINT_ERROR" none none), Event.timerFire]
    (Outcome.resolved none) rfl

theorem stepEvent_neutral (spec : ReqSpec) (e : Event) (he : EventNeutral spec e) :
    stepEvent (initWait spec) e = initWait spec := by
  cases e with
  | msg m =>
    have h1 : ¬ m.type = spec.responseType := he.1
    have h2 : ¬ spec.errorType = some m.type := he.2
    simp [stepEvent, stepMsg, initWait, h1, h2]
  | timerFire => exact he.elim

theorem runEvents_neutral (spec : ReqSpec) (tr : List Event)
    (h : ∀ e ∈ tr, EventNeutral spec e) :
    runEvents (initWait spec) tr = initWait spec := by
  induction tr with
  | nil => rfl
  | cons e tr ih =>
    show runEvents (stepEvent (initWait spec) e) tr = initWait spec
    rw [stepEvent_neutral spec e (h e (List.mem_cons_self e tr))]
    exact ih fun x hx => h x (List.mem_cons_of_mem e hx)

theorem resolve_on_match (spec : ReqSpec) (m : PrinterMsg)
    (hm : m.type = spec.responseType) (he : m.error = none) :
    (stepMsg (initWait spec) m).outcome = some (Outcome.resolved m.payload) := by
  simp [stepMsg, initWait, settleSuccess, errorFieldTruthy, hm, he]

/-- C1: for each of the six public request methods (`scanPrinters`,
`connectPrinter`, `disconnectPrinter`, `print`, `ping`, `getState`), at the
moment the outbound request is sent the success listener (and, when an
error type is configured, the error listener) is already registered and the
call is pending; consequently a response of the success type with no error
field, arriving after the send — past any non-matching traffic — and
strictly before the timeout fires, resolves the call with the response's
payload. -/
theorem c1_correlator_before_send (spec : ReqSpec)
    (hspec : spec ∈ publicRequestSpecs) :
    (initWait spec).successActive = true
    ∧ (spec.errorType.isSome = true → (initWait spec).errorActive = true)
    ∧ (initWait spec).outcome = none
    ∧ ∀ (tr : List Event) (m : PrinterMsg),
        (∀ e ∈ tr, EventNeutral spec e) →
        m.type = spec.responseType →
        m.error = none →
        (runEvents (initWait spec) (tr ++ [Event.msg m])).outcome
          = some (Outcome.resolved m.payload) := by
  have hdeliver : ∀ (tr : List Event) (m : PrinterMsg),
      (∀ e ∈ tr, EventNeutral spec e) →
      m.type = spec.responseType →
      m.error = none →
      (runEvents (initWait spec) (tr ++ [Event.msg m])).outcome
        = some (Outcome.resolved m.payload) := by
    intro tr m htr hm he
    have happ : runEvents (initWait spec) (tr ++ [Event.msg m])
        = runEvents (runEvents (initWait spec) tr) [Event.msg m] := by
      simp [runEvents, List.foldl_append]
    rw [happ, runEvents_neutral spec tr htr]
    exact resolve_on_match spec m hm he
  simp only [publicRequestSpecs, List.mem_cons, List.not_mem_nil, or_false] at hspec
  rcases hspec with h | h | h | h | h | h <;> subst h <;>
    refine ⟨rfl, fun hx => ?_, rfl, hdeliver⟩ <;>
    first
    | rfl
    | exact absurd hx (by decide)

/-- Witness for C1: a `scanPrinters()` correlation, registered before the
send, resolves with the payload of a subsequent
`PRINTERS_FOUND` message carrying payload `x = 1`. -/
theorem c1_correlator_before_send_witness :
    (runEvents (initWait scanPrintersSpec)
        ([] ++ [Event.msg (PrinterMsg.mk "PRINTERS_FOUND"
            (some (JValue.jobj [("x", JValue.jnum 1)])) none)])).outcome
      = some (Outcome.resolved (some (JValue.jobj [("x", JValue.jnum 1)]))) :=
  (c1_correlator_before_send scanPrintersSpec (by simp [publicRequestSpecs])).2.2.2
    [] (PrinterMsg.mk "PRINTERS_FOUND" (some (JValue.jobj [("x", JValue.jnum 1)])) none)
    (by simp) rfl rfl

/-- C3: `connect()` is idempotent and single-flight. With the socket open it
returns immediately, unchanged, without constructing a transport; with an
attempt in flight it returns that same attempt; and from an idle state two
consecutive `connect()` calls yield one new attempt which the second call
joins, so exactly one transport is opened. -/
theorem c3_connect_idempotent_single_flight (s : ConnState) (p : Nat) :
    (s.socket = some ReadyState.opened →
      connect s = (s, ConnectResult.alreadyOpen)
      ∧ (connect s).1.transportsOpened = s.transportsOpened)
    ∧ (s.socket ≠ some ReadyState.opened → s.connectionPromise = some p →
      connect s = (s, ConnectResult.joinedInFlight p))
    ∧ (s.socket ≠ some ReadyState.opened → s.connectionPromise = none →
      (connect s).2 = ConnectResult.newAttempt s.nextPromiseId
      ∧ (connect s).1.transportsOpened = s.transportsOpened + 1
      ∧ connect (connect s).1
          = ((connect s).1, ConnectResult.joinedInFlight s.nextPromiseId)) := by
  refine ⟨?_, ?_, ?_⟩
  · intro h
    simp [connect, h]
  · intro h hp
    simp [connect, h, hp]
  · intro h hp
    simp [connect, h, hp]

/-- Witness for C3: from a fresh idle service, the first `connect()` opens
one transport and a second concurrent `connect()` joins the same attempt. -/
theorem c3_connect_idempotent_single_flight_witness :
    (connect (ConnState.mk none none 0 0 0 5 2000)).2 = ConnectResult.newAttempt 0
    ∧ (connect (ConnState.mk none none 0 0 0 5 2000)).1.transportsOpened
        = (ConnState.mk none none 0 0 0 5 2000).transportsOpened + 1
    ∧ connect (connect (ConnState.mk none none 0 0 0 5 2000)).1
        = ((connect (ConnState.mk none none 0 0 0 5 2000)).1,
           ConnectResult.joinedInFlight 0) :=
  (c3_connect_idempotent_single_flight (ConnState.mk none none 0 0 0 5 2000) 0).2.2
    (by decide) rfl

theorem reconnectSchedule_eq_replicate (fuel : Nat) :
    ∀ s : ConnState,
      s.socket ≠ some ReadyState.opened →
      s.connectionPromise = none →
      s.maxReconnectAttempts - s.reconnectAttempts < fuel →
      reconnectSchedule s fuel
        = List.replicate (s.maxReconnectAttempts - s.reconnectAttempts)
            s.reconnectDelay := by
  induction fuel with
  | zero => intro s _ _ hf; omega
  | succ fuel ih =>
    intro s hsock hprom hf
    by_cases hlt : s.reconnectAttempts < s.maxReconnectAttempts
    · have hfa : failingAttempt s
          = ({ s with socket := some ReadyState.connecting,
                      connectionPromise := none,
                      nextPromiseId := s.nextPromiseId + 1,
                      transportsOpened := s.transportsOpened + 1,
                      reconnectAttempts := s.reconnectAttempts + 1 },
             some s.reconnectDelay) := by
        simp [failingAttempt, connect, onError, onClose, attemptReconnect,
              hsock, hprom, hlt]
      have hstep : reconnectSchedule s (fuel + 1)
          = s.reconnectDelay :: reconnectSchedule
              { s with socket := some ReadyState.connecting,
                       connectionPromise := none,
                       nextPromiseId := s.nextPromiseId + 1,
                       transportsOpened := s.transportsOpened + 1,
                       reconnectAttempts := s.reconnectAttempts + 1 } fuel := by
        rw [reconnectSchedule, hfa]
      rw [hstep, ih _ (by simp) rfl (by simp; omega)]
      have hsub : s.maxReconnectAttempts - s.reconnectAttempts
          = (s.maxReconnectAttempts - (s.reconnectAttempts + 1)) + 1 := by omega
      rw [hsub, List.replicate_succ]
    · have hfa : (failingAttempt s).2 = none := by
        simp [failingAttempt, connect, onError, onClose, attemptReconnect,
              hsock, hprom, hlt]
      have hstep : reconnectSchedule s (fuel + 1) = [] := by
        rw [reconnectSchedule]
        rcases hpair : failingAttempt s with ⟨s1, sched⟩
        rw [hpair] at hfa
        simp at hfa
        rw [hfa]
      rw [hstep, Nat.sub_eq_zero_of_le (Nat.le_of_not_lt hlt), List.replicate_zero]

/-- C4: when every connection attempt fails immediately and the configured
maximum is `N`, the manager schedules exactly `N` reconnect attempts, each
after the configured fixed delay, then stops permanently and silently: once
the counter reaches the maximum, `attemptReconnect` returns the state
unchanged with nothing scheduled and no error is surfaced. The retry
counter never decreases across a failing attempt and is reset to zero only
by the transport-open handler. -/
theorem c4_reconnect_bounded (s : ConnState) (fuel : Nat)
    (hzero : s.reconnectAttempts = 0)
    (hsock : s.socket ≠ some ReadyState.opened)
    (hprom : s.connectionPromise = none)
    (hfuel : s.maxReconnectAttempts < fuel) :
    reconnectSchedule s fuel
      = List.replicate s.maxReconnectAttempts s.reconnectDelay
    ∧ (∀ t : ConnState, t.maxReconnectAttempts ≤ t.reconnectAttempts →
        attemptReconnect t = (t, none))
    ∧ (∀ t : ConnState,
        t.reconnectAttempts ≤ ((failingAttempt t).1).reconnectAttempts)
    ∧ (∀ t : ConnState, (onOpen t).reconnectAttempts = 0) := by
  refine ⟨?_, ?_, ?_, ?_⟩
  · have h := reconnectSchedule_eq_replicate fuel s hsock hprom (by omega)
    rw [h, hzero, Nat.sub_zero]
  · intro t ht
    simp [attemptReconnect, Nat.not_lt.mpr ht]
  · intro t
    unfold failingAttempt onClose onError connect attemptReconnect
    split
    · split <;> simp
    · split
      · split <;> simp
      · split <;> simp
  · intro t
    rfl

/-- Witness for C4: with max attempts 3, delay 2000 and every attempt
failing immediately, exactly three reconnects are scheduled, 2000 ms apart,
then nothing more. -/
theorem c4_reconnect_bounded_witness :
    reconnectSchedule (ConnState.mk none none 0 0 0 3 2000) 4
      = List.replicate 3 2000
    ∧ (∀ t : ConnState, t.maxReconnectAttempts ≤ t.reconnectAttempts →
        attemptReconnect t = (t, none))
    ∧ (∀ t : ConnState,
        t.reconnectAttempts ≤ ((failingAttempt t).1).reconnectAttempts)
    ∧ (∀ t : ConnState, (onOpen t).reconnectAttempts = 0) :=
  c4_reconnect_bounded (ConnState.mk none none 0 0 0 3 2000) 4
    rfl (by decide) rfl (by decide)

theorem nodup_typeHandlers (reg : Registry) (t : String) :
    RegistryWF reg → (typeHandlers reg t).Nodup := by
  induction reg with
  | nil => intro _; simp [typeHandlers, lookupHandlers]
  | cons e rest ih =>
    intro hwf
    rcases e with ⟨u, hs⟩
    by_cases hu : u = t
    · subst hu
      simpa [typeHandlers, lookupHandlers] using hwf (u, hs) (List.mem_cons_self _ _)
    · simp only [typeHandlers, lookupHandlers, if_neg hu]
      exact ih fun x hx => hwf x (List.mem_cons_of_mem _ hx)

theorem lookupHandlers_addHandler_self (reg : Registry) (t : String) (h : HandlerId) :
    lookupHandlers (addHandler reg t h) t
      = some (if h ∈ typeHandlers reg t then typeHandlers reg t
              else typeHandlers reg t ++ [h]) := by
  induction reg with
  | nil => simp [addHandler, lookupHandlers, typeHandlers]
  | cons e rest ih =>
    rcases e with ⟨u, hs⟩
    by_cases hu : u = t
    · subst hu
      simp [addHandler, lookupHandlers, typeHandlers]
    · simp [addHandler, lookupHandlers, typeHandlers, hu, ih]

theorem lookupHandlers_addHandler_other (reg : Registry) (t : String) (h : HandlerId)
    (t' : String) (hne : t' ≠ t) :
    lookupHandlers (addHandler reg t h) t' = lookupHandlers reg t' := by
  induction reg with
  | nil => simp [addHandler, lookupHandlers, Ne.symm hne]
  | cons e rest ih =>
    rcases e with ⟨u, hs⟩
    by_cases hu : u = t
    · subst hu
      simp [addHandler, lookupHandlers, Ne.symm hne]
    · by_cases hu' : u = t'
      · simp [addHandler, lookupHandlers, hu, hu', hne]
      · simp [addHandler, lookupHandlers, hu, hu', hne, ih]

theorem lookupHandlers_removeHandler_self (reg : Registry) (t : String) (h : HandlerId) :
    lookupHandlers (removeHandler reg t h) t
      = (lookupHandlers reg t).map (List.filter (fun x => x ≠ h)) := by
  induction reg with
  | nil => simp [removeHandler, lookupHandlers]
  | cons e rest ih =>
    rcases e with ⟨u, hs⟩
    by_cases hu : u = t
    · subst hu
      simp [removeHandler, lookupHandlers]
    · simp [removeHandler, lookupHandlers, hu, ih]

theorem lookupHandlers_removeHandler_other (reg : Registry) (t : String) (h : HandlerId)
    (t' : String) (hne : t' ≠ t) :
    lookupHandlers (removeHandler reg t h) t' = lookupHandlers reg t' := by
  induction reg with
  | nil => simp [removeHandler, lookupHandlers]
  | cons e rest ih =>
    rcases e with ⟨u, hs⟩
    by_cases hu : u = t
    · subst hu
      simp [removeHandler, lookupHandlers, Ne.symm hne]
    · by_cases hu' : u = t'
      · simp [removeHandler, lookupHandlers, hu, hu', hne]
      · simp [removeHandler, lookupHandlers, hu, hu', hne, ih]

theorem typeHandlers_addHandler_self (reg : Registry) (t : String) (h : HandlerId) :
    typeHandlers (addHandler reg t h) t
      = if h ∈ typeHandlers reg t then typeHandlers reg t
        else typeHandlers reg t ++ [h] := by
  rw [typeHandlers, lookupHandlers_addHandler_self]
  rfl

theorem typeHandlers_addHandler_other (reg : Registry) (t : String) (h : HandlerId)
    (t' : String) (hne : t' ≠ t) :
    typeHandlers (addHandler reg t h) t' = typeHandlers reg t' := by
  rw [typeHandlers, lookupHandlers_addHandler_other reg t h t' hne, typeHandlers]

theorem typeHandlers_removeHandler_self (reg : Registry) (t : String) (h : HandlerId) :
    typeHandlers (removeHandler reg t h) t
      = (typeHandlers reg t).filter (fun x => x ≠ h) := by
  simp only [typeHandlers, lookupHandlers_removeHandler_self]
  cases lookupHandlers reg t <;> rfl

theorem typeHandlers_removeHandler_other (reg : Registry) (t : String) (h : HandlerId)
    (t' : String) (hne : t' ≠ t) :
    typeHandlers (removeHandler reg t h) t' = typeHandlers reg t' := by
  rw [typeHandlers, lookupHandlers_removeHandler_other reg t h t' hne, typeHandlers]

/-- C5 counterexample: the claim quantifies over every type string `t`, but
for `t` equal to the wildcard key a handler registered once is invoked
twice by a single message of type `'*'` — `handleMessage` looks the
wildcard set up once as the exact type and once again as the wildcard
set. -/
theorem c5_counterexample :
    handleMessage (addHandler [] "*" 7) (PrinterMsg.mk "*" none none) = [7, 7]
    ∧ (handleMessage (addHandler [] "*" 7) (PrinterMsg.mk "*" none none)).count 7 ≠ 1 := by
  constructor
  · rfl
  · decide

/-- C5 (amended): for every type string `t` other than the wildcard `'*'`
and handler `h` not also registered under `'*'`, after `on(t, h)` the
handler is invoked exactly once per inbound message whose type equals `t`;
after the unsubscribe closure runs it is never invoked again for type `t`;
and the unsubscribe closure removes exactly that handler from exactly that
type's set and no other. -/
theorem c5_exact_once_until_unsubscribe (reg : Registry) (t : String)
    (h : HandlerId) (m : PrinterMsg)
    (hwf : RegistryWF reg)
    (ht : t ≠ "*")
    (hw : h ∉ typeHandlers reg "*")
    (hm : m.type = t) :
    (handleMessage (addHandler reg t h) m).count h = 1
    ∧ (handleMessage (removeHandler (addHandler reg t h) t h) m).count h = 0
    ∧ (∀ (t' : String) (h' : HandlerId), t' ≠ t ∨ h' ≠ h →
        (h' ∈ typeHandlers (removeHandler reg t h) t'
          ↔ h' ∈ typeHandlers reg t')) := by
  have hstar : ("*" : String) ≠ t := fun he => ht he.symm
  refine ⟨?_, ?_, ?_⟩
  · rw [handleMessage, hm, List.count_append,
        typeHandlers_addHandler_other reg t h "*" hstar,
        List.count_eq_zero_of_not_mem hw, Nat.add_zero,
        typeHandlers_addHandler_self]
    by_cases hmem : h ∈ typeHandlers reg t
    · rw [if_pos hmem]
      exact List.count_eq_one_of_mem (nodup_typeHandlers reg t hwf) hmem
    · rw [if_neg hmem, List.count_append,
          List.count_eq_zero_of_not_mem hmem]
      simp
  · rw [handleMessage, hm, List.count_append,
        typeHandlers_removeHandler_self,
        typeHandlers_removeHandler_other _ t h "*" hstar,
        typeHandlers_addHandler_other reg t h "*" hstar,
        List.count_eq_zero_of_not_mem hw, Nat.add_zero]
    refine List.count_eq_zero_of_not_mem ?_
    simp [List.mem_filter]
  · intro t' h' hcase
    by_cases htt : t' = t
    · subst htt
      rcases hcase with hne | hne
      · exact absurd rfl hne
      · rw [typeHandlers_removeHandler_self]
        simp [List.mem_filter, hne]
    · rw [typeHandlers_removeHandler_other reg t h t' htt]

/-- Witness for the amended C5: a handler registered under `"FOO"` over a
well-formed registry fires once per `"FOO"` message and never after
unsubscribing; the unsubscribe leaves the other entry untouched. -/
theorem c5_exact_once_until_unsubscribe_witness :
    (handleMessage (addHandler [("BAR", [5])] "FOO" 9)
        (PrinterMsg.mk "FOO" none none)).count 9 = 1
    ∧ (handleMessage (removeHandler (addHandler [("BAR", [5])] "FOO" 9) "FOO" 9)
        (PrinterMsg.mk "FOO" none none)).count 9 = 0
    ∧ (∀ (t' : String) (h' : HandlerId), t' ≠ "FOO" ∨ h' ≠ 9 →
        (h' ∈ typeHandlers (removeHandler [("BAR", [5])] "FOO" 9) t'
          ↔ h' ∈ typeHandlers [("BAR", [5])] t')) :=
  c5_exact_once_until_unsubscribe [("BAR", [5])] "FOO" 9
    (PrinterMsg.mk "FOO" none none) (by unfold RegistryWF; decide) (by decide)
    (by decide) rfl

/-- C6: in the variant whose `handleMessage` implements wildcard dispatch,
every handler registered under `'*'` is invoked for every inbound message
regardless of its type, in addition to the handlers registered under the
message's exact type. -/
theorem c6_wildcard_delivery (reg : Registry) (m : PrinterMsg) (h : HandlerId) :
    (h ∈ typeHandlers reg "*" → h ∈ handleMessage reg m)
    ∧ (h ∈ typeHandlers reg m.type → h ∈ handleMessage reg m) := by
  constructor
  · intro hh
    exact List.mem_append_right _ hh
  · intro hh
    exact List.mem_append_left _ hh

/-- Witness for C6: the wildcard handler 1 is delivered a `"FOO"` message
alongside the exact-type handler 2. -/
theorem c6_wildcard_delivery_witness :
    1 ∈ handleMessage (addHandler (addHandler [] "*" 1) "FOO" 2)
          (PrinterMsg.mk "FOO" none none)
    ∧ 2 ∈ handleMessage (addHandler (addHandler [] "*" 1) "FOO" 2)
          (PrinterMsg.mk "FOO" none none) :=
  ⟨(c6_wildcard_delivery (addHandler (addHandler [] "*" 1) "FOO" 2)
      (PrinterMsg.mk "FOO" none none) 1).1 (by decide),
   (c6_wildcard_delivery (addHandler (addHandler [] "*" 1) "FOO" 2)
      (PrinterMsg.mk "FOO" none none) 2).2 (by decide)⟩

/-- C10: a message whose type is exactly `'*'` invokes each wildcard
handler twice — once via the exact-type lookup and once more via the
additional wildcard lookup. -/
theorem c10_wildcard_message_double_invocation (reg : Registry) (m : PrinterMsg)
    (h : HandlerId)
    (hm : m.type = "*")
    (hwf : RegistryWF reg)
    (hh : h ∈ typeHandlers reg "*") :
    (handleMessage reg m).count h = 2 := by
  rw [handleMessage, hm, List.count_append,
      List.count_eq_one_of_mem (nodup_typeHandlers reg "*" hwf) hh]

/-- Witness for C10: handler 7, registered once under `'*'`, is invoked
twice by a message of type `'*'`. -/
theorem c10_wildcard_message_double_invocation_witness :
    (handleMessage (addHandler [] "*" 7) (PrinterMsg.mk "*" none none)).count 7 = 2 :=
  c10_wildcard_message_double_invocation (addHandler [] "*" 7)
    (PrinterMsg.mk "*" none none) 7 rfl (by unfold RegistryWF; decide) (by decide)

theorem error_listener_settles (spec : ReqSpec) (m : PrinterMsg)
    (hne : ¬ m.type = spec.responseType)
    (hm : spec.errorType = some m.type)
    (ha : errorTypeTruthy spec = true) :
    (stepMsg (initWait spec) m).outcome
      = some (Outcome.rejected (rejectMessage m)) := by
  simp [stepMsg, initWait, settleError, hne, hm, ha]

/-- C7 counterexample: the claim's "embedded message field if present"
reading fails for a present-but-empty message field. A `PRINT_ERROR`
message whose payload carries `message = ""` alongside a top-level
`error = "boom"` rejects the `print()` call with "boom", not with the
present (empty) message field, because the code's `||` chain skips falsy
values. -/
theorem c7_counterexample :
    payloadMessage (PrinterMsg.mk "PRINT_ERROR"
        (some (JValue.jobj [("message", JValue.jstr "")])) (some "boom"))
      = some (JValue.jstr "")
    ∧ (runEvents (initWait printSpec)
        [Event.msg (PrinterMsg.mk "PRINT_ERROR"
          (some (JValue.jobj [("message", JValue.jstr "")])) (some "boom"))]).outcome
      = some (Outcome.rejected "boom")
    ∧ ("boom" : String) ≠ "" := by
  refine ⟨rfl, rfl, by decide⟩

/-- C7 (amended): on delivery of the designated error-type message the
pending call is rejected with a message chosen in this preference order:
the payload's embedded `message` field if present and truthy (in
particular, a non-empty string), otherwise the top-level `error` field if
present and non-empty, otherwise the generic "Operation failed"; in
particular `print()` receiving `PRINT_ERROR` with payload message
"out of paper" rejects with "out of paper". -/
theorem c7_error_rejection_preference :
    (∀ (m : PrinterMsg) (v : JValue), m.type = "PRINT_ERROR" →
        payloadMessage m = some v → jsTruthy v = true →
        (runEvents (initWait printSpec) [Event.msg m]).outcome
          = some (Outcome.rejected (jvalueToJsString v)))
    ∧ (∀ (m : PrinterMsg) (e : String), m.type = "PRINT_ERROR" →
        (payloadMessage m = none
          ∨ ∃ v, payloadMessage m = some v ∧ jsTruthy v = false) →
        m.error = some e → e ≠ "" →
        (runEvents (initWait printSpec) [Event.msg m]).outcome
          = some (Outcome.rejected e))
    ∧ (∀ m : PrinterMsg, m.type = "PRINT_ERROR" →
        (payloadMessage m = none
          ∨ ∃ v, payloadMessage m = some v ∧ jsTruthy v = false) →
        (m.error = none ∨ m.error = some "") →
        (runEvents (initWait printSpec) [Event.msg m]).outcome
          = some (Outcome.rejected "Operation failed")) := by
  have hcore : ∀ m : PrinterMsg, m.type = "PRINT_ERROR" →
      (runEvents (initWait printSpec) [Event.msg m]).outcome
        = some (Outcome.rejected (rejectMessage m)) := by
    intro m hT
    exact error_listener_settles printSpec m (by rw [hT]; decide)
      (by rw [hT]; rfl) rfl
  refine ⟨?_, ?_, ?_⟩
  · intro m v hT hpm htr
    have hr : rejectMessage m = jvalueToJsString v := by
      simp [rejectMessage, hpm, htr]
    rw [hcore m hT, hr]
  · intro m e hT hfal he hne
    have hr : rejectMessage m = e := by
      rcases hfal with hpm | ⟨v, hpm, hfv⟩
      · simp [rejectMessage, hpm, he, hne]
      · simp [rejectMessage, hpm, hfv, he, hne]
    rw [hcore m hT, hr]
  · intro m hT hfal herr
    have hr : rejectMessage m = "Operation failed" := by
      rcases hfal with hpm | ⟨v, hpm, hfv⟩ <;>
        rcases herr with he | he <;>
        simp [rejectMessage, hpm, he]
      · simp [hfv]
      · simp [hfv]
    rw [hcore m hT, hr]

/-- Witness for the amended C7: `print()` receiving `PRINT_ERROR` with
payload message "out of paper" rejects with exactly "out of paper". -/
theorem c7_error_rejection_preference_witness :
    (runEvents (initWait printSpec)
        [Event.msg (PrinterMsg.mk "PRINT_ERROR"
          (some (JValue.jobj [("message", JValue.jstr "out of paper")])) none)]).outcome
      = some (Outcome.rejected "out of paper") :=
  c7_error_rejection_preference.1
    (PrinterMsg.mk "PRINT_ERROR"
      (some (JValue.jobj [("message", JValue.jstr "out of paper")])) none)
    (JValue.jstr "out of paper") rfl rfl rfl

/-- C8: `disconnect()` closes the transport exactly when one is present,
clears the transport handle, and wipes all subscriptions; it is idempotent
(a second call closes nothing and changes nothing); afterwards
`isConnected()` is false and no previously registered handler fires for any
subsequent inbound message. -/
theorem c8_disconnect_clears_everything (s : ServiceState) :
    (disconnect s).2 = s.conn.socket.isSome
    ∧ (disconnect s).1.conn.socket = none
    ∧ (disconnect s).1.handlers = []
    ∧ disconnect (disconnect s).1 = ((disconnect s).1, false)
    ∧ isConnected (disconnect s).1 = false
    ∧ ∀ m : PrinterMsg, handleMessage (disconnect s).1.handlers m = [] :=
  ⟨rfl, rfl, rfl, rfl, rfl, fun _ => rfl⟩

/-- C9: every falsy configured value — `maxReconnectAttempts` of 0,
`reconnectDelay` of 0, an empty URL — is replaced by the corresponding
default (5 attempts, 2000 ms, `ws://localhost:8899`); consequently no
configuration can produce zero reconnect attempts or a zero reconnect
delay. -/
theorem c9_constructor_defaults (cfg : PrinterConfig) :
    (cfg.maxReconnectAttempts = some 0 →
      (mkPrinterService cfg).maxReconnectAttempts = DEFAULT_MAX_RECONNECT_ATTEMPTS)
    ∧ (cfg.reconnectDelay = some 0 →
      (mkPrinterService cfg).reconnectDelay = DEFAULT_RECONNECT_DELAY)
    ∧ (cfg.url = some "" → (mkPrinterService cfg).url = DEFAULT_WS_URL)
    ∧ 0 < (mkPrinterService cfg).maxReconnectAttempts
    ∧ 0 < (mkPrinterService cfg).reconnectDelay := by
  refine ⟨?_, ?_, ?_, ?_, ?_⟩
  · intro h
    simp [mkPrinterService, jsOrNat, h]
  · intro h
    simp [mkPrinterService, jsOrNat, h]
  · intro h
    simp [mkPrinterService, jsOrStr, h]
  · simp only [mkPrinterService]
    unfold jsOrNat
    cases cfg.maxReconnectAttempts with
    | none => decide
    | some n =>
        by_cases hn : n = 0
        · simp [hn]
          decide
        · simp [hn]
          omega
  · simp only [mkPrinterService]
    unfold jsOrNat
    cases cfg.reconnectDelay with
    | none => decide
    | some n =>
        by_cases hn : n = 0
        · simp [hn]
          decide
        · simp [hn]
          omega

/-- Witness for C9: a configuration with empty URL, zero max attempts and
zero delay gets all three defaults. -/
theorem c9_constructor_defaults_witness :
    (mkPrinterService (PrinterConfig.mk (some "") none (some 0) (some 0) none)).maxReconnectAttempts
        = DEFAULT_MAX_RECONNECT_ATTEMPTS
    ∧ (mkPrinterService (PrinterConfig.mk (some "") none (some 0) (some 0) none)).reconnectDelay
        = DEFAULT_RECONNECT_DELAY
    ∧ (mkPrinterService (PrinterConfig.mk (some "") none (some 0) (some 0) none)).url
        = DEFAULT_WS_URL :=
  ⟨(c9_constructor_defaults (PrinterConfig.mk (some "") none (some 0) (some 0) none)).1 rfl,
   (c9_constructor_defaults (PrinterConfig.mk (some "") none (some 0) (some 0) none)).2.1 rfl,
   (c9_constructor_defaults (PrinterConfig.mk (some "") none (some 0) (some 0) none)).2.2.1 rfl⟩

end PrintSetu
